import Mathlib

/-!
Shallow embedding of the content consolidation and deduplication pipeline of
the web-search-db-system repository, together with theorems settling the
claims of its specification.

Conventions used throughout:
* Machine text is `String`; token counting is an arbitrary function
  `tokens : String → Nat` (the source delegates to the tiktoken library).
* Timestamps are `Int` (the source compares ISO-8601 UTC strings, whose
  lexicographic order coincides with chronological order).
* Similarity scores are `ℚ` (the source compares Python floats only against
  the literal 0.65; no float arithmetic is performed in the embedded code).
* Oracle (LLM) calls are modelled by explicit outcome parameters: each call
  site receives the outcome of that call, at the granularity the source
  distinguishes (missing response / tag-search failure / parsed payload).
* Python exceptions are modelled with `Except Unit`; a caught exception is
  folded into the value the enclosing handler produces, exactly as the
  corresponding try/except does in the source.
-/

namespace WebSearchDB

/-! ## Token-budgeted aggregator

Embedding of the per-chunk loop body shared by
`process_group_article_contents` and `process_others_article_contents` in
example_usage_get_arcive.py (lines 822-847 and 943-968).  The working
state is the pair (combined_content, current_token_count). -/

/-- State of the aggregation loop: the accumulated buffer text and the
running token count. -/
structure AggState where
  buffer : String
  count : Nat
  deriving Repr, DecidableEq

/-- Outcome of one summarization oracle round-trip, at the granularity the
source distinguishes: `openai_chat` returned the sentinel None (the source
then calls `.find` on None, which raises), or the response did not pass the
tag check (`summary_start >= 0 and summary_end >= 0`), or the tag check
passed and the inner text `s` was extracted. -/
inductive SummarizeResult where
  | sentinel : SummarizeResult
  | noTag : SummarizeResult
  | tagged (s : String) : SummarizeResult
  deriving Repr, DecidableEq

/-- The wrapped summary string the source builds from an extracted summary:
combined_content is replaced by the inner text enclosed in summary tags. -/
def wrapSummary (s : String) : String :=
  "<summary>" ++ s ++ "</summary>"

/-- One iteration of the aggregation loop for one content chunk
`newContent` (already formatted with its title header, as in the source).
`oracle` maps the buffer submitted for summarization to that call's
outcome.  Returns the new state (or an uncaught exception, as in the
source, when the oracle returns the sentinel and `.find` is called on
None) together with the list of buffers that were submitted to the
summarization oracle during this iteration. -/
def process_content_chunk (tokens : String → Nat) (oracle : String → SummarizeResult)
    (st : AggState) (newContent : String) : Except Unit AggState × List String :=
  let cost := tokens newContent
  if st.count + cost > 20000 ∧ st.buffer ≠ "" then
    match oracle st.buffer with
    | SummarizeResult.sentinel => (Except.error (), [st.buffer])
    | SummarizeResult.noTag =>
        (Except.ok ⟨st.buffer ++ newContent, st.count + cost⟩, [st.buffer])
    | SummarizeResult.tagged s =>
        let b := wrapSummary s
        (Except.ok ⟨b ++ newContent, tokens b + cost⟩, [st.buffer])
  else
    (Except.ok ⟨st.buffer ++ newContent, st.count + cost⟩, [])

/-- The trigger condition of the source: the running count plus the incoming
chunk's token cost strictly exceeds 20000 and the buffer is non-empty. -/
def summarizeTriggered (tokens : String → Nat) (st : AggState) (newContent : String) : Prop :=
  st.count + tokens newContent > 20000 ∧ st.buffer ≠ ""

instance (tokens : String → Nat) (st : AggState) (newContent : String) :
    Decidable (summarizeTriggered tokens st newContent) := by
  unfold summarizeTriggered; infer_instance

/-- The whole aggregation loop over a list of chunks, threading the state
and propagating an uncaught exception, as the source loop does. -/
def process_contents (tokens : String → Nat) (oracle : String → SummarizeResult)
    (st : AggState) : List String → Except Unit AggState
  | [] => Except.ok st
  | c :: cs =>
    match (process_content_chunk tokens oracle st c).1 with
    | Except.error e => Except.error e
    | Except.ok st' => process_contents tokens oracle st' cs

/-! ## Oracle call wrapper

Embedding of `OpenaiAdapter.openai_chat` (src/chat/openai_adapter.py,
lines 18-33).  Attempt `i` (0-based) either yields the response text or
raises; `attempt i = some t` models a successful call returning `t`,
`attempt i = none` models an exception caught by the except clause.  The
result pairs the returned value with the number of attempts made. -/

/-- Loop of `openai_chat`: `i` is the index of the next attempt, `remaining`
the number of loop iterations left out of `retry_limit`. -/
def openai_chat_loop (attempt : Nat → Option String) : Nat → Nat → Option String × Nat
  | _, 0 => (none, 0)
  | i, remaining + 1 =>
    match attempt i with
    | some t => (some t, 1)
    | none =>
      if remaining = 0 then (none, 1)
      else
        let r := openai_chat_loop attempt (i + 1) remaining
        (r.1, r.2 + 1)

/-- The retry wrapper: at most `retry_limit` attempts, immediate retry on an
exception, the sentinel `none` after the last failed attempt (and also when
`retry_limit` is zero, where the Python loop body never runs and the
function falls through returning None). -/
def openai_chat (retry_limit : Nat) (attempt : Nat → Option String) : Option String × Nat :=
  openai_chat_loop attempt 0 retry_limit

/-! ## Retention assignment

Embedding of `determine_retention_periods` (example_usage_get_arcive.py,
lines 1208-1259).  Records are processed in batches of 5; for each batch
one oracle call is made, its tagged JSON payload holds a list of
(number, days) entries that are matched back to the batch by 1-based
position; any exception inside the try block (a missing response, a failed
tag search or JSON parse, or a malformed entry hit mid-loop) sends the
whole batch to the except clause, which sets 7 days on every record. -/

/-- A record at the retention-assignment stage: only its title and its
(initially absent) retention_period_days field matter here. -/
structure RetentionArticle where
  title : String
  retention_period_days : Option Nat
  deriving Repr, DecidableEq

/-- Outcome of one batch's oracle retention call, at the granularity the
source distinguishes: either the whole try block ran to completion with the
parsed list of (number, days) entries, or an exception was raised after some
prefix of the entries had already been applied to the batch (covering a
missing response, tag or JSON failure — empty prefix — as well as a
malformed entry hit mid-loop). -/
inductive RetentionOutcome where
  | parsedOk (periods : List (Int × Nat)) : RetentionOutcome
  | failedAfter (applied : List (Int × Nat)) : RetentionOutcome
  deriving Repr, DecidableEq

/-- Application of one parsed (number, days) entry to a batch: the record at
0-based index number - 1 receives the period when that index is in range,
exactly as the source's bounds check does. -/
def set_retention (batch : List RetentionArticle) (number : Int) (days : Nat) :
    List RetentionArticle :=
  if 0 ≤ number - 1 ∧ number - 1 < (batch.length : Int) then
    batch.modify (fun a => { a with retention_period_days := some days }) (number - 1).toNat
  else batch

/-- Sequential application of parsed (number, days) entries to a batch. -/
def apply_periods (batch : List RetentionArticle) (periods : List (Int × Nat)) :
    List RetentionArticle :=
  periods.foldl (fun b p => set_retention b p.1 p.2) batch

/-- Processing of one batch: on success the parsed entries are applied; on a
failure the entries applied before the exception are first applied (the
mutations already happened) and the except clause then overwrites every
record of the batch with the 7-day default. -/
def process_retention_batch (batch : List RetentionArticle) (outcome : RetentionOutcome) :
    List RetentionArticle :=
  match outcome with
  | RetentionOutcome.parsedOk ps => apply_periods batch ps
  | RetentionOutcome.failedAfter ps =>
      (apply_periods batch ps).map (fun a => { a with retention_period_days := some 7 })

/-- The batched loop of `determine_retention_periods`: batch `k` holds the
records at positions 5k, ..., 5k+4 and is settled by `outcomes k`. -/
def determine_retention_periods (outcomes : Nat → RetentionOutcome) (k : Nat)
    (articles : List RetentionArticle) : List RetentionArticle :=
  if articles = [] then []
  else
    process_retention_batch (articles.take 5) (outcomes k) ++
      determine_retention_periods outcomes (k + 1) (articles.drop 5)
termination_by articles.length
decreasing_by
  simp only [List.length_drop]
  have : articles.length ≠ 0 := by
    simpa [List.length_eq_zero] using (by assumption : ¬articles = [])
  omega

/-! ## Document store reads with lazy expiry

Embedding of `get_discovered_articles`, `get_referenced_articles` and
`get_valid_essential_info` (src/firestore/firestore_adapter.py, lines
530-640).  The source compares ISO-8601 UTC timestamp strings with `>`,
whose lexicographic order agrees with chronological order; timestamps are
modelled as `Int`.  Each read returns the list handed back to the caller
together with the compacting write it issued, if any (`some` of the list
written back). -/

/-- Seven days, in the seconds-based timestamp scale. -/
def oneWeek : Int := 7 * 86400

/-- The default timestamp the source assigns to discovered entries that
lack one (datetime.min): earlier than every realistic time. -/
def tsMin : Int := -(10 ^ 18)

/-- An entry of the essential-info collection as stored by the adapter in
src (info_name / text_data / timestamp / expiration_date). -/
structure InfoEntry where
  info_name : String
  text_data : String
  timestamp : Int
  expiration_date : Int
  deriving Repr, DecidableEq

/-- An entry of the Reference ledger. -/
structure ReferencedEntry where
  title : String
  url : String
  timestamp : Int
  deriving Repr, DecidableEq

/-- An entry of the Discovery ledger; old-format entries may lack the
timestamp field. -/
structure DiscoveredEntry where
  title : String
  url : String
  timestamp : Option Int
  deriving Repr, DecidableEq

/-- The timestamp the source reads from a discovered entry, with the
datetime.min default for the old format. -/
def discTs (a : DiscoveredEntry) : Int :=
  a.timestamp.getD tsMin

/-- Read of the Discovery ledger: default missing timestamps, drop entries
at least one week old, compact the stored list if anything was dropped, and
return the survivors newest first. -/
def get_discovered_articles (now : Int) (articles : List DiscoveredEntry) :
    List DiscoveredEntry × Option (List DiscoveredEntry) :=
  let defaulted := articles.map (fun a => { a with timestamp := some (discTs a) })
  let one_week_ago := now - oneWeek
  let valid := defaulted.filter (fun a => decide (one_week_ago < discTs a))
  let write := if valid.length < defaulted.length then some valid else none
  (valid.mergeSort (fun a b => decide (discTs b ≤ discTs a)), write)

/-- Read of the Reference ledger: drop entries at least one week old,
compact if anything was dropped, return the survivors newest first. -/
def get_referenced_articles (now : Int) (articles : List ReferencedEntry) :
    List ReferencedEntry × Option (List ReferencedEntry) :=
  let one_week_ago := now - oneWeek
  let valid := articles.filter (fun a => decide (one_week_ago < a.timestamp))
  let write := if valid.length < articles.length then some valid else none
  (valid.mergeSort (fun a b => decide (b.timestamp ≤ a.timestamp)), write)

/-- Read of the essential-info collection: drop entries whose expiration
has passed, compact if anything was dropped, return the survivors newest
first. -/
def get_valid_essential_info (now : Int) (info_list : List InfoEntry) :
    List InfoEntry × Option (List InfoEntry) :=
  let valid := info_list.filter (fun i => decide (now < i.expiration_date))
  let write := if valid.length < info_list.length then some valid else none
  (valid.mergeSort (fun a b => decide (b.timestamp ≤ a.timestamp)), write)

/-! ## Two-stage relevance classifier

Embedding of `analyze_article_contents` (example_usage_get_arcive.py,
lines 683-781), `analyze_individual_article_content` (lines 458-556, the
same decision structure applied to a single article), and the callers
`analyze_article_group` (lines 612-681) and `analyze_individual_article`
(lines 407-456).  Each oracle stage is modelled at the granularity the
source distinguishes: missing response (openai_chat returned None),
unparsable payload (extract_tagged_json returned None), or a parsed
payload. -/

/-- Outcome of one classifier oracle stage. -/
inductive StageResponse (α : Type) where
  | missing : StageResponse α
  | unparsable : StageResponse α
  | parsed (payload : α) : StageResponse α
  deriving Repr, DecidableEq

/-- Parsed payload of the stage-1 (initial analysis) call, with the
defaults the source's dict.get calls supply already folded in. -/
structure InitialAnalysis where
  is_appropriate : Bool
  is_usable : Bool
  starterReasoning : String
  relevanceReasoning : String
  extracted_info : String
  deriving Repr, DecidableEq

/-- Parsed payload of the stage-2 (validation) call. -/
structure ValidationResult where
  is_valid : Bool
  target_customers : String
  reasoning : String
  deriving Repr, DecidableEq

/-- The dict `analyze_article_contents` returns on success: either the
essential-info result or a rejection carrying only the reasoning. -/
inductive AnalysisResult where
  | essential (extracted_info target_customers reasoning : String) : AnalysisResult
  | notEssential (reasoning : String) : AnalysisResult
  deriving Repr, DecidableEq

/-- The concatenated rejection reason built from whichever stage-1
judgment(s) failed. -/
def stage1Reasons (r : InitialAnalysis) : String :=
  String.intercalate " / "
    ((if r.is_appropriate then [] else ["会話の導入として不適切: " ++ r.starterReasoning]) ++
     (if r.is_usable then [] else ["保険との関連性が不適切: " ++ r.relevanceReasoning]))

/-- Two-stage classification of a group's combined article texts: a missing
or unparsable response at either stage yields None; a failed stage-1
judgment or a negative validation yields the rejection dict; both stages
passing yields the essential-info dict. -/
def analyze_article_contents (initial : StageResponse InitialAnalysis)
    (validation : StageResponse ValidationResult) : Option AnalysisResult :=
  match initial with
  | StageResponse.missing => none
  | StageResponse.unparsable => none
  | StageResponse.parsed r =>
    if r.is_appropriate ∧ r.is_usable then
      match validation with
      | StageResponse.missing => none
      | StageResponse.unparsable => none
      | StageResponse.parsed v =>
        if v.is_valid then
          some (AnalysisResult.essential r.extracted_info v.target_customers v.reasoning)
        else some (AnalysisResult.notEssential v.reasoning)
    else some (AnalysisResult.notEssential (stage1Reasons r))

/-- Two-stage classification of a single article's text; the source
function is decision-for-decision the same as the group variant. -/
def analyze_individual_article_content (initial : StageResponse InitialAnalysis)
    (validation : StageResponse ValidationResult) : Option AnalysisResult :=
  match initial with
  | StageResponse.missing => none
  | StageResponse.unparsable => none
  | StageResponse.parsed r =>
    if r.is_appropriate ∧ r.is_usable then
      match validation with
      | StageResponse.missing => none
      | StageResponse.unparsable => none
      | StageResponse.parsed v =>
        if v.is_valid then
          some (AnalysisResult.essential r.extracted_info v.target_customers v.reasoning)
        else some (AnalysisResult.notEssential v.reasoning)
    else some (AnalysisResult.notEssential (stage1Reasons r))

/-- A (non-others) article group as the classifier stage sees it: its title
and the analysis dict attached so far (absent on entry). -/
structure ArticleGroup where
  title : String
  analysis : Option AnalysisResult
  deriving Repr, DecidableEq

/-- An individual article as the classifier stage sees it. -/
structure IndivArticle where
  title : String
  analysis : Option AnalysisResult
  deriving Repr, DecidableEq

/-- Classification of a (non-others) group, for the case the group holds at
least one fetched article text (`contentFetched`): an essential result
attaches the analysis, a rejection drops the group (None), and a missing or
unparsable oracle response falls through to the final return, which KEEPS
the group unchanged; when no content could be fetched the group is likewise
kept unchanged. -/
def analyze_article_group (contentFetched : Bool)
    (initial : StageResponse InitialAnalysis) (validation : StageResponse ValidationResult)
    (g : ArticleGroup) : Option ArticleGroup :=
  if contentFetched then
    match analyze_article_contents initial validation with
    | some (AnalysisResult.essential e t r) =>
        some { g with analysis := some (AnalysisResult.essential e t r) }
    | some (AnalysisResult.notEssential _) => none
    | none => some g
  else some g

/-- Classification of an individual (others-group) article: an essential
result attaches the analysis, and a rejection, a missing or unparsable
oracle response, or an unfetchable article all drop it (None). -/
def analyze_individual_article (contentFetched : Bool)
    (initial : StageResponse InitialAnalysis) (validation : StageResponse ValidationResult)
    (a : IndivArticle) : Option IndivArticle :=
  if contentFetched then
    match analyze_individual_article_content initial validation with
    | some (AnalysisResult.essential e t r) =>
        some { a with analysis := some (AnalysisResult.essential e t r) }
    | some (AnalysisResult.notEssential _) => none
    | none => none
  else none

/-- The guard of `analyze_article_groups` (lines 1194-1201): a detail
article (the Essential-Info Record candidate) is generated for a group only
when its analysis dict is present and carries extracted_info, i.e. only for
an essential analysis; `genOk` abstracts whether `generate_detail_article`
itself succeeded. -/
def group_produces_record (g : ArticleGroup) (genOk : Bool) : Bool :=
  match g.analysis with
  | some (AnalysisResult.essential _ _ _) => genOk
  | _ => false

/-! ## Similarity deduplication and merge engine

Embedding of `process_similar_articles` (example_usage_get_arcive.py,
lines 972-1086).  Embedding vectors are lists of rationals produced by an
arbitrary function `embed`; the similarity score attached to each stored
neighbor by the vector search is a rational (absent for records the search
attached none to).  The two oracle calls are modelled at the granularity
the source distinguishes.  Python exceptions inside the body are caught by
the enclosing try/except, which returns the candidate in whatever state it
had reached. -/

/-- A candidate record during consolidation (the detail_article dict);
its embedding field is absent until the engine attaches it. -/
structure DetailArticle where
  title : String
  content : String
  target_customers : String
  usage_example : String
  embedding : Option (List ℚ)
  deriving Repr, DecidableEq

/-- A stored essential-info record as the vector search returns it,
carrying the similarity score the search attached (absent for records
without one; the source then reads it as 0). -/
structure StoredArticle where
  title : String
  content : String
  target_customers : String
  usage_example : String
  embedding : List ℚ
  similarity : Option ℚ
  deriving Repr, DecidableEq

/-- The similarity score the source reads from a stored neighbor:
article.get('similarity', 0). -/
def simOf (a : StoredArticle) : ℚ :=
  a.similarity.getD 0

/-- Outcome of one duplicate-check oracle call, at the granularity the
source distinguishes: missing response or missing tags (both skip the
neighbor), a JSON parse error (raises, aborting the whole consolidation),
or a parsed payload with its is_similar flag (a missing key reads as
false). -/
inductive CheckOutcome where
  | noResponse : CheckOutcome
  | noTag : CheckOutcome
  | badJson : CheckOutcome
  | parsed (is_similar : Bool) : CheckOutcome
  deriving Repr, DecidableEq

/-- The merged record the merge oracle produces. -/
structure MergedArticle where
  title : String
  content : String
  usage_example : String
  target_customers : String
  deriving Repr, DecidableEq

/-- Outcome of the merge oracle call: missing response or missing tags
(both skip the merge), a JSON or key error (raises, caught by the outer
except), or a parsed merged record. -/
inductive MergeOutcome where
  | noResponse : MergeOutcome
  | noTag : MergeOutcome
  | badJson : MergeOutcome
  | parsed (m : MergedArticle) : MergeOutcome
  deriving Repr, DecidableEq

/-- The neighbor loop of `process_similar_articles` (lines 995-1027):
first component is the collected (articles_to_merge, articles_to_delete)
pair, or an exception when a duplicate-check payload failed to parse as
JSON; second component logs, in order, the neighbors that were actually
submitted to the duplicate-check oracle call. -/
def collect_similar (check : StoredArticle → CheckOutcome) :
    List StoredArticle →
      Except Unit (List StoredArticle × List (String × String)) × List StoredArticle
  | [] => (Except.ok ([], []), [])
  | a :: rest =>
    if simOf a ≥ 65 / 100 then
      match check a with
      | CheckOutcome.badJson => (Except.error (), [a])
      | CheckOutcome.parsed true =>
        let r := collect_similar check rest
        (match r.1 with
         | Except.error e => Except.error e
         | Except.ok (m, d) => Except.ok (a :: m, (a.title, a.content) :: d),
         a :: r.2)
      | CheckOutcome.noResponse =>
        let r := collect_similar check rest
        (r.1, a :: r.2)
      | CheckOutcome.noTag =>
        let r := collect_similar check rest
        (r.1, a :: r.2)
      | CheckOutcome.parsed false =>
        let r := collect_similar check rest
        (r.1, a :: r.2)
    else collect_similar check rest

/-- Modelled from the spec: `delete_essential_info_batch` is called by the
pipeline but the adapter version in src predates it; per the Document Store
contract (delete-matching by exact field-tuple equality) and the merge
engine's tie-break rule (deletion keyed on exact (title, content) equality
of the stored record), it removes every stored record whose (title,
content) pair equals one of the given pairs. -/
def delete_essential_info_batch (store : List StoredArticle)
    (dels : List (String × String)) : List StoredArticle :=
  store.filter (fun a => decide ((a.title, a.content) ∉ dels))

/-- The in-place substitution of the merged record's fields into the
candidate (lines 1066-1076); the new embedding is computed from the merged
record's usage_example field. -/
def update_merged (embed : String → List ℚ) (cand : DetailArticle)
    (m : MergedArticle) : DetailArticle :=
  { cand with
    title := m.title
    content := m.content
    usage_example := m.usage_example
    target_customers := m.target_customers
    embedding := some (embed m.usage_example) }

/-- The consolidation engine: attach the candidate's embedding (computed
from its target_customers field), run the neighbor loop, and when confirmed
duplicates exist and the merge oracle parses, substitute the merged fields
into the candidate and then delete the superseded records; `deleteOk`
models whether the store delete call succeeds (when it raises, the
enclosing except returns the candidate in its already-updated state and
the store is unchanged).  Returns the final candidate and store. -/
def process_similar_articles (embed : String → List ℚ)
    (check : StoredArticle → CheckOutcome) (mergeOracle : MergeOutcome)
    (deleteOk : Bool) (store : List StoredArticle) (cand0 : DetailArticle) :
    DetailArticle × List StoredArticle :=
  let cand1 := { cand0 with embedding := some (embed cand0.target_customers) }
  match (collect_similar check store).1 with
  | Except.error _ => (cand1, store)
  | Except.ok (toMerge, toDelete) =>
    if toMerge = [] then (cand1, store)
    else
      match mergeOracle with
      | MergeOutcome.parsed m =>
        let cand2 := update_merged embed cand1 m
        if deleteOk then (cand2, delete_essential_info_batch store toDelete)
        else (cand2, store)
      | MergeOutcome.noResponse => (cand1, store)
      | MergeOutcome.noTag => (cand1, store)
      | MergeOutcome.badJson => (cand1, store)

/-! ## Theorems -/

/-- C5: for every aggregation state and incoming chunk, the summarization
oracle is consulted exactly when the running token count plus the chunk's
token cost strictly exceeds 20000 and the buffer is non-empty; when it is
not consulted the chunk is appended directly, and on a successful
summarization the buffer becomes the wrapped summary followed by the chunk
and the running count is reset to the wrapped summary's own token cost
before the chunk's cost is added. -/
theorem aggregator_trigger_and_reset (tokens : String → Nat)
    (oracle : String → SummarizeResult) (st : AggState) (c : String) :
    ((process_content_chunk tokens oracle st c).2 ≠ [] ↔ summarizeTriggered tokens st c) ∧
    (¬ summarizeTriggered tokens st c →
      (process_content_chunk tokens oracle st c).1 =
        Except.ok ⟨st.buffer ++ c, st.count + tokens c⟩) ∧
    (∀ s, summarizeTriggered tokens st c → oracle st.buffer = SummarizeResult.tagged s →
      (process_content_chunk tokens oracle st c).1 =
        Except.ok ⟨wrapSummary s ++ c, tokens (wrapSummary s) + tokens c⟩) := by
  unfold process_content_chunk summarizeTriggered
  by_cases h : st.count + tokens c > 20000 ∧ st.buffer ≠ ""
  · refine ⟨?_, fun hn => absurd h hn, fun s _ ho => ?_⟩
    · cases ho : oracle st.buffer <;> simp [ho, h]
    · simp [ho, h]
  · refine ⟨?_, fun _ => ?_, fun s ht _ => absurd ht h⟩
    · simp [h]
    · simp [h]

/-- C5 witness: a concrete triggered summarization resetting the count. -/
theorem aggregator_trigger_and_reset_witness :
    (process_content_chunk String.length (fun _ => SummarizeResult.tagged "S")
        ⟨"B", 20000⟩ "c").1 =
      Except.ok ⟨wrapSummary "S" ++ "c", (wrapSummary "S").length + "c".length⟩ :=
  (aggregator_trigger_and_reset String.length (fun _ => SummarizeResult.tagged "S")
      ⟨"B", 20000⟩ "c").2.2 "S" (by constructor <;> decide) rfl

/-- C4 counterexample: when the summarization oracle returns the no-result
sentinel None at a triggered summarization, the aggregation step raises
(the source calls .find on None), so the failure is fatal for the step
rather than leaving the buffer unmodified and appending the chunk. -/
theorem aggregator_sentinel_raises :
    (process_content_chunk String.length (fun _ => SummarizeResult.sentinel)
        ⟨"B", 20000⟩ "c").1 = Except.error () := by
  have h : (0 : Nat) < "c".length := by decide
  simp [process_content_chunk, h]

/-- C4 amended: at a triggered summarization, a response that fails the
summary tag check leaves the buffer unmodified and still appends the chunk
even though the token ceiling is exceeded, with no exception; but when the
Oracle call returns the no-result sentinel None, an exception propagates
out of the aggregation step. -/
theorem aggregator_failure_behavior (tokens : String → Nat)
    (oracle : String → SummarizeResult) (st : AggState) (c : String)
    (htrig : summarizeTriggered tokens st c) :
    (oracle st.buffer = SummarizeResult.noTag →
      (process_content_chunk tokens oracle st c).1 =
        Except.ok ⟨st.buffer ++ c, st.count + tokens c⟩) ∧
    (oracle st.buffer = SummarizeResult.sentinel →
      (process_content_chunk tokens oracle st c).1 = Except.error ()) := by
  obtain ⟨h1, h2⟩ := htrig
  constructor <;> intro ho <;> simp [process_content_chunk, ho, h1, h2]

/-- C4 amended witness: the tag-check failure path at a concrete input. -/
theorem aggregator_failure_behavior_witness :
    (process_content_chunk String.length (fun _ => SummarizeResult.noTag)
        ⟨"B", 20000⟩ "c").1 = Except.ok ⟨"B" ++ "c", 20000 + "c".length⟩ :=
  (aggregator_failure_behavior String.length (fun _ => SummarizeResult.noTag)
      ⟨"B", 20000⟩ "c" (by constructor <;> decide)).1 rfl

/-- Loop invariant of `openai_chat_loop`: at most `remaining` attempts are
made, a returned text is the result of the first successful attempt in the
window, and the sentinel comes back when every attempt in the window
fails. -/
theorem openai_chat_loop_spec (attempt : Nat → Option String) :
    ∀ remaining i,
      (openai_chat_loop attempt i remaining).2 ≤ remaining ∧
      (∀ t, (openai_chat_loop attempt i remaining).1 = some t →
        ∃ k, k < remaining ∧ attempt (i + k) = some t ∧
          ∀ j, j < k → attempt (i + j) = none) ∧
      ((∀ k, k < remaining → attempt (i + k) = none) →
        (openai_chat_loop attempt i remaining).1 = none) := by
  intro remaining
  induction remaining with
  | zero =>
    intro i
    refine ⟨Nat.le_refl 0, fun t ht => ?_, fun _ => rfl⟩
    simp [openai_chat_loop] at ht
  | succ n ih =>
    intro i
    by_cases ha : ∃ t, attempt i = some t
    · obtain ⟨t0, ht0⟩ := ha
      refine ⟨?_, fun t ht => ?_, fun hall => ?_⟩
      · simp [openai_chat_loop, ht0]
      · refine ⟨0, Nat.succ_pos n, ?_, fun j hj => absurd hj (Nat.not_lt_zero j)⟩
        simp [openai_chat_loop, ht0] at ht
        simpa [ht] using ht0
      · exact absurd (hall 0 (Nat.succ_pos n)) (by simpa using Option.ne_none_iff_exists'.mpr ⟨t0, ht0⟩)
    · have ha' : attempt i = none := by
        cases hcase : attempt i with
        | none => rfl
        | some t => exact absurd ⟨t, hcase⟩ ha
      by_cases hn : n = 0
      · subst hn
        refine ⟨by simp [openai_chat_loop, ha'], fun t ht => ?_, fun _ => ?_⟩
        · simp [openai_chat_loop, ha'] at ht
        · simp [openai_chat_loop, ha']
      · obtain ⟨h1, h2, h3⟩ := ih (i + 1)
        refine ⟨?_, fun t ht => ?_, fun hall => ?_⟩
        · simpa [openai_chat_loop, ha', hn] using Nat.succ_le_succ h1
        · simp only [openai_chat_loop, ha', hn, if_neg hn] at ht
          obtain ⟨k, hk, hks, hkp⟩ := h2 t ht
          refine ⟨k + 1, Nat.succ_lt_succ hk, ?_, fun j hj => ?_⟩
          · have he : i + (k + 1) = i + 1 + k := by omega
            rw [he]; exact hks
          · cases j with
            | zero => simpa using ha'
            | succ m =>
              have hm := hkp m (Nat.lt_of_succ_lt_succ hj)
              have he : i + (m + 1) = i + 1 + m := by omega
              rw [he]; exact hm
        · have : (openai_chat_loop attempt (i + 1) n).1 = none := by
            refine h3 (fun k hk => ?_)
            have := hall (k + 1) (Nat.succ_lt_succ hk)
            simpa [Nat.add_assoc, Nat.add_comm 1 k] using this
          simp [openai_chat_loop, ha', hn, this]

/-- Forward direction of the loop contract: when attempt `i + k` is the
first success in the window, the loop returns its text after exactly
`k + 1` attempts. -/
theorem openai_chat_loop_first_success (attempt : Nat → Option String) :
    ∀ remaining i k t, k < remaining → attempt (i + k) = some t →
      (∀ j, j < k → attempt (i + j) = none) →
      (openai_chat_loop attempt i remaining).1 = some t ∧
      (openai_chat_loop attempt i remaining).2 = k + 1 := by
  intro remaining
  induction remaining with
  | zero =>
    intro i k t hk
    exact absurd hk (Nat.not_lt_zero k)
  | succ n ih =>
    intro i k t hk hs hp
    cases hcase : attempt i with
    | some t0 =>
      cases k with
      | zero =>
        rw [Nat.add_zero] at hs
        have heq : some t0 = some t := by rw [← hcase, ← hs]
        cases heq
        exact ⟨by simp [openai_chat_loop, hcase], by simp [openai_chat_loop, hcase]⟩
      | succ m =>
        have h0 := hp 0 (Nat.succ_pos m)
        rw [Nat.add_zero] at h0
        rw [h0] at hcase
        exact Option.noConfusion hcase
    | none =>
      cases k with
      | zero =>
        rw [Nat.add_zero] at hs
        rw [hs] at hcase
        exact Option.noConfusion hcase
      | succ m =>
        have hm : m < n := Nat.lt_of_succ_lt_succ hk
        have hn : n ≠ 0 := fun hz => by rw [hz] at hm; exact absurd hm (Nat.not_lt_zero m)
        have hs' : attempt (i + 1 + m) = some t := by
          have he : i + 1 + m = i + (m + 1) := by omega
          rw [he]; exact hs
        have hp' : ∀ j, j < m → attempt (i + 1 + j) = none := by
          intro j hj
          have he : i + 1 + j = i + (j + 1) := by omega
          rw [he]
          exact hp (j + 1) (Nat.succ_lt_succ hj)
        obtain ⟨h1, h2⟩ := ih (i + 1) m t hm hs' hp'
        constructor
        · simp [openai_chat_loop, hcase, hn, h1]
        · simp [openai_chat_loop, hcase, hn, h2]

/-- C9: the Oracle call wrapper makes at most retry_limit attempts; when
attempt i is the first to succeed within the limit (every earlier attempt
raised and was retried immediately), the wrapper returns that attempt's
response text after exactly i + 1 attempts; conversely any returned text is
the first successful attempt's response; and when every attempt within the
limit fails the wrapper returns the no-result sentinel None; the embedding
is a total function, reflecting that the wrapper catches every exception
and never propagates one to its caller. -/
theorem openai_chat_contract (retry_limit : Nat) (attempt : Nat → Option String) :
    (openai_chat retry_limit attempt).2 ≤ retry_limit ∧
    (∀ i t, i < retry_limit → attempt i = some t →
      (∀ j, j < i → attempt j = none) →
      (openai_chat retry_limit attempt).1 = some t ∧
      (openai_chat retry_limit attempt).2 = i + 1) ∧
    (∀ t, (openai_chat retry_limit attempt).1 = some t →
      ∃ k, k < retry_limit ∧ attempt k = some t ∧ ∀ j, j < k → attempt j = none) ∧
    ((∀ k, k < retry_limit → attempt k = none) →
      (openai_chat retry_limit attempt).1 = none) := by
  obtain ⟨h1, h2, h3⟩ := openai_chat_loop_spec attempt retry_limit 0
  refine ⟨h1, fun i t hi hs hp => ?_, fun t ht => ?_, fun hall => ?_⟩
  · have := openai_chat_loop_first_success attempt retry_limit 0 i t hi
      (by simpa using hs) (fun j hj => by simpa using hp j hj)
    exact this
  · have := h2 t ht
    simpa using this
  · exact h3 (fun k hk => by simpa using hall k hk)

/-- C9 witness: with a limit of 3, the first two attempts failing and the
third succeeding, the wrapper returns the third attempt's text after
exactly three attempts. -/
theorem openai_chat_contract_witness :
    (openai_chat 3 (fun i => if i = 2 then some "ok" else none)).1 = some "ok" ∧
    (openai_chat 3 (fun i => if i = 2 then some "ok" else none)).2 = 2 + 1 :=
  (openai_chat_contract 3 (fun i => if i = 2 then some "ok" else none)).2.1 2 "ok"
    (by decide) (by decide) (by decide)

/-- C8: every stored neighbor that is actually submitted to the Oracle
duplicate-check call has similarity score (read as 0 when absent) at least
0.65 and comes from the neighbor list; a neighbor below the threshold is
never submitted. -/
theorem duplicate_check_prefilter (check : StoredArticle → CheckOutcome) :
    ∀ articles : List StoredArticle, ∀ a ∈ (collect_similar check articles).2,
      simOf a ≥ 65 / 100 ∧ a ∈ articles := by
  intro articles
  induction articles with
  | nil => intro a ha; simp [collect_similar] at ha
  | cons x rest ih =>
    intro a ha
    by_cases hs : simOf x ≥ 65 / 100
    · cases hc : check x with
      | badJson =>
        simp [collect_similar, hs, hc] at ha
        rw [ha]
        exact ⟨hs, List.mem_cons_self x rest⟩
      | noResponse =>
        simp only [collect_similar, if_pos hs, hc, List.mem_cons] at ha
        rcases ha with rfl | ha
        · exact ⟨hs, List.mem_cons_self a rest⟩
        · exact ⟨(ih a ha).1, List.mem_cons_of_mem x (ih a ha).2⟩
      | noTag =>
        simp only [collect_similar, if_pos hs, hc, List.mem_cons] at ha
        rcases ha with rfl | ha
        · exact ⟨hs, List.mem_cons_self a rest⟩
        · exact ⟨(ih a ha).1, List.mem_cons_of_mem x (ih a ha).2⟩
      | parsed b =>
        cases b with
        | false =>
          simp only [collect_similar, if_pos hs, hc, List.mem_cons] at ha
          rcases ha with rfl | ha
          · exact ⟨hs, List.mem_cons_self a rest⟩
          · exact ⟨(ih a ha).1, List.mem_cons_of_mem x (ih a ha).2⟩
        | true =>
          simp only [collect_similar, if_pos hs, hc, List.mem_cons] at ha
          rcases ha with rfl | ha
          · exact ⟨hs, List.mem_cons_self a rest⟩
          · exact ⟨(ih a ha).1, List.mem_cons_of_mem x (ih a ha).2⟩
    · simp only [collect_similar, if_neg hs] at ha
      exact ⟨(ih a ha).1, List.mem_cons_of_mem x (ih a ha).2⟩

/-- C8 witness: a concrete neighbor with similarity 0.9 is checked and
satisfies the threshold. -/
theorem duplicate_check_prefilter_witness :
    simOf ⟨"t", "c", "tc", "u", [1], some (9 / 10)⟩ ≥ 65 / 100 ∧
      (⟨"t", "c", "tc", "u", [1], some (9 / 10)⟩ : StoredArticle) ∈
        [(⟨"t", "c", "tc", "u", [1], some (9 / 10)⟩ : StoredArticle)] :=
  duplicate_check_prefilter (fun _ => CheckOutcome.parsed true)
    [⟨"t", "c", "tc", "u", [1], some (9 / 10)⟩]
    ⟨"t", "c", "tc", "u", [1], some (9 / 10)⟩
    (by simp [collect_similar, simOf]; norm_num)

/-- Applying one parsed retention entry preserves the batch length. -/
theorem set_retention_length (batch : List RetentionArticle) (number : Int) (days : Nat) :
    (set_retention batch number days).length = batch.length := by
  unfold set_retention
  split
  · exact List.length_modify _ _ _
  · rfl

/-- Applying a list of parsed retention entries preserves the batch length. -/
theorem apply_periods_length (periods : List (Int × Nat)) :
    ∀ batch : List RetentionArticle, (apply_periods batch periods).length = batch.length := by
  induction periods with
  | nil => intro batch; rfl
  | cons p ps ih =>
    intro batch
    show (apply_periods (set_retention batch p.1 p.2) ps).length = batch.length
    rw [ih, set_retention_length]

/-- Batch processing preserves the batch length. -/
theorem process_retention_batch_length (batch : List RetentionArticle)
    (outcome : RetentionOutcome) :
    (process_retention_batch batch outcome).length = batch.length := by
  cases outcome with
  | parsedOk ps => exact apply_periods_length ps batch
  | failedAfter ps =>
    show ((apply_periods batch ps).map _).length = batch.length
    rw [List.length_map, apply_periods_length]

/-- On a failed batch, every record comes out with the 7-day default,
whatever entries had been applied before the failure. -/
theorem process_retention_batch_failed (batch : List RetentionArticle)
    (ps : List (Int × Nat)) (i : Nat) (a : RetentionArticle)
    (ha : (process_retention_batch batch (RetentionOutcome.failedAfter ps))[i]? = some a) :
    a.retention_period_days = some 7 := by
  unfold process_retention_batch at ha
  rw [List.getElem?_map] at ha
  cases hb : (apply_periods batch ps)[i]? with
  | none =>
    rw [hb] at ha
    exact Option.noConfusion ha
  | some b =>
    rw [hb] at ha
    have hfb : some { b with retention_period_days := some 7 } = some a := ha
    cases hfb
    rfl

/-- Length preservation for the whole batched retention loop. -/
theorem determine_retention_periods_length (outcomes : Nat → RetentionOutcome) :
    ∀ n (articles : List RetentionArticle), articles.length ≤ n → ∀ k,
      (determine_retention_periods outcomes k articles).length = articles.length := by
  intro n
  induction n with
  | zero =>
    intro articles h k
    have : articles = [] := List.length_eq_zero.mp (Nat.le_zero.mp h)
    subst this
    rw [determine_retention_periods]
    simp
  | succ m ih =>
    intro articles h k
    by_cases he : articles = []
    · subst he
      rw [determine_retention_periods]
      simp
    · rw [determine_retention_periods, if_neg he, List.length_append,
        process_retention_batch_length,
        ih (articles.drop 5) (by rw [List.length_drop]; omega) (k + 1),
        List.length_take, List.length_drop]
      have : articles.length ≠ 0 := fun hz => he (List.length_eq_zero.mp hz)
      omega

/-- Fuelled induction for the failed-batch default property of the batched
retention loop. -/
theorem determine_retention_aux (outcomes : Nat → RetentionOutcome) :
    ∀ n (articles : List RetentionArticle), articles.length ≤ n → ∀ k i,
      i < articles.length →
      (∃ ps, outcomes (k + i / 5) = RetentionOutcome.failedAfter ps) →
      ∀ a, (determine_retention_periods outcomes k articles)[i]? = some a →
        a.retention_period_days = some 7 := by
  intro n
  induction n with
  | zero =>
    intro articles h k i hi
    omega
  | succ m ih =>
    intro articles h k i hi hfail a ha
    have he : articles ≠ [] := by
      intro hz; rw [hz] at hi; simp at hi
    rw [determine_retention_periods, if_neg he] at ha
    have hbl : (process_retention_batch (articles.take 5) (outcomes k)).length =
        min 5 articles.length := by
      rw [process_retention_batch_length, List.length_take]
    by_cases hlt : i < 5
    · have hmem : i < (process_retention_batch (articles.take 5) (outcomes k)).length := by
        rw [hbl]; omega
      rw [List.getElem?_append_left hmem] at ha
      have hdiv : i / 5 = 0 := Nat.div_eq_of_lt hlt
      obtain ⟨ps, hps⟩ := hfail
      rw [hdiv, Nat.add_zero] at hps
      rw [hps] at ha
      exact process_retention_batch_failed _ ps i a ha
    · have h5 : 5 ≤ i := Nat.le_of_not_lt hlt
      have hlen5 : (process_retention_batch (articles.take 5) (outcomes k)).length = 5 := by
        rw [hbl]; omega
      rw [List.getElem?_append_right (by omega), hlen5] at ha
      refine ih (articles.drop 5) (by rw [List.length_drop]; omega) (k + 1) (i - 5)
        (by rw [List.length_drop]; omega) ?_ a ha
      obtain ⟨ps, hps⟩ := hfail
      refine ⟨ps, ?_⟩
      have : k + 1 + (i - 5) / 5 = k + i / 5 := by omega
      rw [this]; exact hps

/-- C6: retention assignment processes records in batches of 5 (batch k
holds positions 5k to 5k+4), and for every batch whose oracle call fails —
whether before or after some entries of that batch had already been
applied — every record of that batch ends the assignment with
retention_period_days equal to exactly 7. -/
theorem retention_failed_batch_all_seven (outcomes : Nat → RetentionOutcome)
    (articles : List RetentionArticle) (i : Nat) (hi : i < articles.length)
    (hfail : ∃ ps, outcomes (i / 5) = RetentionOutcome.failedAfter ps) :
    ∀ a, (determine_retention_periods outcomes 0 articles)[i]? = some a →
      a.retention_period_days = some 7 := by
  intro a ha
  refine determine_retention_aux outcomes articles.length articles (Nat.le_refl _) 0 i hi ?_ a ha
  simpa using hfail

/-- C6 witness: a batch of six records whose first batch fails mid-way
(after assigning 30 days to its first record) still ends with 7 days on
that record. -/
theorem retention_failed_batch_all_seven_witness :
    (0 : Nat) < ([⟨"a1", none⟩, ⟨"a2", none⟩, ⟨"a3", none⟩, ⟨"a4", none⟩, ⟨"a5", none⟩,
        ⟨"a6", none⟩] : List RetentionArticle).length ∧
    (RetentionArticle.mk "a1" (some 7)).retention_period_days = some 7 := by
  refine ⟨by decide, ?_⟩
  refine retention_failed_batch_all_seven
    (fun b => if b = 0 then RetentionOutcome.failedAfter [(1, 30)]
              else RetentionOutcome.parsedOk [(1, 3)])
    [⟨"a1", none⟩, ⟨"a2", none⟩, ⟨"a3", none⟩, ⟨"a4", none⟩, ⟨"a5", none⟩, ⟨"a6", none⟩]
    0 (by decide) ⟨[(1, 30)], rfl⟩ ⟨"a1", some 7⟩ ?_
  simp [determine_retention_periods, process_retention_batch, apply_periods, set_retention]

/-- Every element of a sorted filtered list satisfies the filter. -/
theorem mem_mergeSort_filter {α : Type} (le : α → α → Bool) (p : α → Bool)
    (l : List α) (a : α) (h : a ∈ (l.filter p).mergeSort le) : p a = true :=
  (List.mem_filter.mp ((List.mergeSort_perm (l.filter p) le).mem_iff.mp h)).2

/-- Sorting by a descending integer key yields a pairwise-descending list
that is a permutation of the input. -/
theorem mergeSort_desc_key {α : Type} (key : α → Int) (l : List α) :
    (l.mergeSort (fun a b => decide (key b ≤ key a))).Pairwise
        (fun a b => key b ≤ key a) ∧
    (l.mergeSort (fun a b => decide (key b ≤ key a))).Perm l := by
  constructor
  · have hs := @List.sorted_mergeSort α (fun a b : α => decide (key b ≤ key a))
      (fun a b c h1 h2 => by
        simp only [decide_eq_true_eq] at h1 h2 ⊢
        exact le_trans h2 h1)
      (fun a b => by
        simp only [Bool.or_eq_true, decide_eq_true_eq]
        exact le_total (key b) (key a))
      l
    exact hs.imp (fun h => of_decide_eq_true h)
  · exact List.mergeSort_perm l _

/-- C7: no read of the essential-info collection returns a record whose
expiration timestamp has passed, no ledger read returns an entry a week old
or older, and whenever a read filters at least one entry out it issues a
compacting write holding exactly the surviving entries. -/
theorem lazy_expiry_reads (now : Int) (infos : List InfoEntry)
    (darts : List DiscoveredEntry) (rarts : List ReferencedEntry) :
    (∀ e ∈ (get_valid_essential_info now infos).1, now < e.expiration_date) ∧
    (∀ a ∈ (get_discovered_articles now darts).1, now - oneWeek < discTs a) ∧
    (∀ a ∈ (get_referenced_articles now rarts).1, now - oneWeek < a.timestamp) ∧
    ((infos.filter (fun i => decide (now < i.expiration_date))).length < infos.length →
      (get_valid_essential_info now infos).2 =
        some (infos.filter (fun i => decide (now < i.expiration_date)))) ∧
    (((darts.map (fun a => { a with timestamp := some (discTs a) })).filter
          (fun a => decide (now - oneWeek < discTs a))).length < darts.length →
      (get_discovered_articles now darts).2 =
        some ((darts.map (fun a => { a with timestamp := some (discTs a) })).filter
          (fun a => decide (now - oneWeek < discTs a)))) ∧
    ((rarts.filter (fun a => decide (now - oneWeek < a.timestamp))).length < rarts.length →
      (get_referenced_articles now rarts).2 =
        some (rarts.filter (fun a => decide (now - oneWeek < a.timestamp)))) := by
  refine ⟨fun e he => ?_, fun a ha => ?_, fun a ha => ?_, fun h => ?_, fun h => ?_, fun h => ?_⟩
  · simp only [get_valid_essential_info] at he
    exact of_decide_eq_true (mem_mergeSort_filter
      (fun a b => decide (b.timestamp ≤ a.timestamp))
      (fun i => decide (now < i.expiration_date)) infos e he)
  · simp only [get_discovered_articles] at ha
    exact of_decide_eq_true (mem_mergeSort_filter
      (fun a b => decide (discTs b ≤ discTs a))
      (fun a => decide (now - oneWeek < discTs a))
      (darts.map (fun a => { a with timestamp := some (discTs a) })) a ha)
  · simp only [get_referenced_articles] at ha
    exact of_decide_eq_true (mem_mergeSort_filter
      (fun a b => decide (b.timestamp ≤ a.timestamp))
      (fun a => decide (now - oneWeek < a.timestamp)) rarts a ha)
  · simp only [get_valid_essential_info]
    rw [if_pos h]
  · simp only [get_discovered_articles]
    rw [if_pos (by simpa using h)]
  · simp only [get_referenced_articles]
    rw [if_pos h]

/-- C7 witness: at a concrete time and store contents, the read keeps the
unexpired record and compacts the expired one away. -/
theorem lazy_expiry_reads_witness :
    (⟨"n1", "d1", 10, 200⟩ : InfoEntry) ∈
        (get_valid_essential_info 100 [⟨"n1", "d1", 10, 200⟩, ⟨"n2", "d2", 20, 50⟩]).1 ∧
    (100 : Int) < (200 : Int) ∧
    (get_valid_essential_info 100 [⟨"n1", "d1", 10, 200⟩, ⟨"n2", "d2", 20, 50⟩]).2 =
      some [⟨"n1", "d1", 10, 200⟩] := by
  have h := lazy_expiry_reads 100 [⟨"n1", "d1", 10, 200⟩, ⟨"n2", "d2", 20, 50⟩] [] []
  have hmem : (⟨"n1", "d1", 10, 200⟩ : InfoEntry) ∈
      (get_valid_essential_info 100 [⟨"n1", "d1", 10, 200⟩, ⟨"n2", "d2", 20, 50⟩]).1 := by
    simp only [get_valid_essential_info]
    exact (mergeSort_desc_key (fun e : InfoEntry => e.timestamp) _).2.mem_iff.mpr (by decide)
  refine ⟨hmem, h.1 ⟨"n1", "d1", 10, 200⟩ hmem, ?_⟩
  have hc := h.2.2.2.1 (by decide)
  simpa using hc

/-- C10: every read of the Discovery ledger, the Reference ledger or the
essential-info collection returns exactly the surviving entries, sorted by
their stored (creation) timestamp in descending order, newest first. -/
theorem reads_sorted_newest_first (now : Int) (infos : List InfoEntry)
    (darts : List DiscoveredEntry) (rarts : List ReferencedEntry) :
    ((get_valid_essential_info now infos).1.Pairwise
        (fun a b => b.timestamp ≤ a.timestamp) ∧
      (get_valid_essential_info now infos).1.Perm
        (infos.filter (fun i => decide (now < i.expiration_date)))) ∧
    ((get_discovered_articles now darts).1.Pairwise
        (fun a b => discTs b ≤ discTs a) ∧
      (get_discovered_articles now darts).1.Perm
        ((darts.map (fun a => { a with timestamp := some (discTs a) })).filter
          (fun a => decide (now - oneWeek < discTs a)))) ∧
    ((get_referenced_articles now rarts).1.Pairwise
        (fun a b => b.timestamp ≤ a.timestamp) ∧
      (get_referenced_articles now rarts).1.Perm
        (rarts.filter (fun a => decide (now - oneWeek < a.timestamp)))) := by
  refine ⟨⟨?_, ?_⟩, ⟨?_, ?_⟩, ⟨?_, ?_⟩⟩
  · exact (mergeSort_desc_key (fun e : InfoEntry => e.timestamp) _).1
  · exact (mergeSort_desc_key (fun e : InfoEntry => e.timestamp) _).2
  · exact (mergeSort_desc_key discTs _).1
  · exact (mergeSort_desc_key discTs _).2
  · exact (mergeSort_desc_key (fun e : ReferencedEntry => e.timestamp) _).1
  · exact (mergeSort_desc_key (fun e : ReferencedEntry => e.timestamp) _).2

/-- C2 counterexample: a non-others article group whose stage-1 Oracle
response is missing is NOT dropped the way a Rejected candidate is — the
rejected path returns None, but the oracle-failure path returns the group
unchanged, keeping it in the pipeline. -/
theorem group_oracle_failure_kept :
    analyze_article_group true StageResponse.missing StageResponse.missing
        ⟨"G", none⟩ = some ⟨"G", none⟩ ∧
    analyze_article_group true
        (StageResponse.parsed ⟨false, true, "r1", "r2", "e"⟩)
        StageResponse.missing ⟨"G", none⟩ = none := by
  constructor <;> rfl

/-- C2 amended: a missing or unparsable Oracle response at either
classification stage drops an individual (others-group) article exactly as
a Rejected one (None, no retry); a non-others group is instead returned
unchanged — retained in the pipeline rather than dropped — but, carrying no
analysis dict, it still produces no Essential-Info Record downstream. -/
theorem classifier_failure_handling (initial : StageResponse InitialAnalysis)
    (validation : StageResponse ValidationResult) (g : ArticleGroup) (a : IndivArticle)
    (genOk : Bool)
    (hg : analyze_article_contents initial validation = none)
    (ha : analyze_individual_article_content initial validation = none) :
    analyze_individual_article true initial validation a = none ∧
    analyze_article_group true initial validation g = some g ∧
    (g.analysis = none → group_produces_record g genOk = false) := by
  refine ⟨?_, ?_, fun hn => ?_⟩
  · simp [analyze_individual_article, ha]
  · simp [analyze_article_group, hg]
  · simp [group_produces_record, hn]

/-- C2 amended witness: the missing-response case at concrete inputs. -/
theorem classifier_failure_handling_witness :
    analyze_individual_article true StageResponse.missing StageResponse.missing
        ⟨"A", none⟩ = none ∧
    analyze_article_group true StageResponse.missing StageResponse.missing
        ⟨"G2", none⟩ = some ⟨"G2", none⟩ ∧
    ((⟨"G2", none⟩ : ArticleGroup).analysis = none →
      group_produces_record ⟨"G2", none⟩ true = false) :=
  classifier_failure_handling StageResponse.missing StageResponse.missing
    ⟨"G2", none⟩ ⟨"A", none⟩ true rfl rfl

/-- C3 counterexample: with one confirmed duplicate and a parsed merge,
when the store delete call raises (and is swallowed by the enclosing
except), the reachable final outcome has the candidate carrying the merged
fields while the superseded record is still present in the store — the
removal and the substitution are not one atomic step. -/
theorem merge_not_atomic_counterexample :
    (process_similar_articles (fun s => [(s.length : ℚ)]) (fun _ => CheckOutcome.parsed true)
        (MergeOutcome.parsed ⟨"tm", "cm", "um", "tcm"⟩) false
        [⟨"t0", "c0", "tc0", "u0", [1], some (9 / 10)⟩]
        ⟨"t1", "c1", "tc1", "u1", none⟩).1.title = "tm" ∧
    (process_similar_articles (fun s => [(s.length : ℚ)]) (fun _ => CheckOutcome.parsed true)
        (MergeOutcome.parsed ⟨"tm", "cm", "um", "tcm"⟩) false
        [⟨"t0", "c0", "tc0", "u0", [1], some (9 / 10)⟩]
        ⟨"t1", "c1", "tc1", "u1", none⟩).1.content = "cm" ∧
    (⟨"t0", "c0", "tc0", "u0", [1], some (9 / 10)⟩ : StoredArticle) ∈
      (process_similar_articles (fun s => [(s.length : ℚ)]) (fun _ => CheckOutcome.parsed true)
        (MergeOutcome.parsed ⟨"tm", "cm", "um", "tcm"⟩) false
        [⟨"t0", "c0", "tc0", "u0", [1], some (9 / 10)⟩]
        ⟨"t1", "c1", "tc1", "u1", none⟩).2 := by
  norm_num [process_similar_articles, collect_similar, simOf, update_merged]

/-- C3 amended: the substitution of the merged fields happens first and
the deletion of the superseded records second, in sequence within the same
consolidation call; when the delete call succeeds the final outcome is the
merged candidate with every confirmed-duplicate (title, content) record
removed from the store. -/
theorem merge_substitutes_then_deletes (embed : String → List ℚ)
    (check : StoredArticle → CheckOutcome) (m : MergedArticle)
    (store : List StoredArticle) (cand : DetailArticle)
    (toMerge : List StoredArticle) (toDelete : List (String × String))
    (hcollect : (collect_similar check store).1 = Except.ok (toMerge, toDelete))
    (hne : toMerge ≠ []) :
    (process_similar_articles embed check (MergeOutcome.parsed m) true store cand).1 =
      update_merged embed
        { cand with embedding := some (embed cand.target_customers) } m ∧
    ∀ a ∈ (process_similar_articles embed check (MergeOutcome.parsed m) true store cand).2,
      (a.title, a.content) ∉ toDelete := by
  unfold process_similar_articles
  rw [hcollect]
  refine ⟨by simp [hne], fun a ha => ?_⟩
  simp only [hne, if_neg, not_false_iff, if_true] at ha
  simp [delete_essential_info_batch, List.mem_filter] at ha
  exact ha.2

/-- C3 amended witness: the successful-delete path at concrete inputs. -/
theorem merge_substitutes_then_deletes_witness :
    (process_similar_articles (fun s => [(s.length : ℚ)]) (fun _ => CheckOutcome.parsed true)
        (MergeOutcome.parsed ⟨"tm", "cm", "um", "tcm"⟩) true
        [⟨"t0", "c0", "tc0", "u0", [1], some (9 / 10)⟩]
        ⟨"t1", "c1", "tc1", "u1", none⟩).1 =
      update_merged (fun s => [(s.length : ℚ)])
        { (⟨"t1", "c1", "tc1", "u1", none⟩ : DetailArticle) with
          embedding := some [(("tc1" : String).length : ℚ)] } ⟨"tm", "cm", "um", "tcm"⟩ ∧
    ∀ a ∈ (process_similar_articles (fun s => [(s.length : ℚ)])
        (fun _ => CheckOutcome.parsed true)
        (MergeOutcome.parsed ⟨"tm", "cm", "um", "tcm"⟩) true
        [⟨"t0", "c0", "tc0", "u0", [1], some (9 / 10)⟩]
        ⟨"t1", "c1", "tc1", "u1", none⟩).2,
      (a.title, a.content) ∉ [("t0", "c0")] :=
  merge_substitutes_then_deletes (fun s => [(s.length : ℚ)])
    (fun _ => CheckOutcome.parsed true) ⟨"tm", "cm", "um", "tcm"⟩
    [⟨"t0", "c0", "tc0", "u0", [1], some (9 / 10)⟩] ⟨"t1", "c1", "tc1", "u1", none⟩
    [⟨"t0", "c0", "tc0", "u0", [1], some (9 / 10)⟩] [("t0", "c0")]
    (by norm_num [collect_similar, simOf]) (List.cons_ne_nil _ _)

/-- C1: embedding provenance in consolidation, evaluated on a failing
input.  The embedding attached before the neighbor search is computed from
the candidate's target_customers field, but after a merge the recomputed
embedding comes from the merged record's usage_example text, not its
target-audience text: at this input the two sources give different
vectors, and the final embedding is the usage_example one. -/
theorem merged_embedding_uses_usage_example :
    ((process_similar_articles (fun s => [(s.length : ℚ)]) (fun _ => CheckOutcome.parsed false)
        MergeOutcome.noResponse true [] ⟨"t1", "c1", "tc1", "u1", none⟩).1.embedding =
      some [(("tc1" : String).length : ℚ)]) ∧
    ((process_similar_articles (fun s => [(s.length : ℚ)]) (fun _ => CheckOutcome.parsed true)
        (MergeOutcome.parsed ⟨"tm", "cm", "um2", "tc"⟩) true
        [⟨"t0", "c0", "tc0", "u0", [1], some (9 / 10)⟩]
        ⟨"t1", "c1", "tc1", "u1", none⟩).1.embedding =
      some [(("um2" : String).length : ℚ)]) ∧
    some [(("um2" : String).length : ℚ)] ≠
      some [(("tc" : String).length : ℚ)] := by
  refine ⟨rfl, by norm_num [process_similar_articles, collect_similar, simOf, update_merged],
    ?_⟩
  intro h
  have h3 : (("um2" : String).length : ℚ) = (("tc" : String).length : ℚ) :=
    List.head_eq_of_cons_eq (Option.some.inj h)
  have h4 : ("um2" : String).length = ("tc" : String).length := by exact_mod_cast h3
  exact absurd h4 (by decide)

end WebSearchDB
